import Mathlib

/-!
# SynchronousAudioRouter: the WaveRT pin property handlers (wavert.cpp)

A shallow embedding of `SynchronousAudioRouter/wavert.cpp`: the buffer
acquisition `SarKsPinRtGetBufferCore` with its two entry points, the
hardware latency and position register queries, and the registration of a
notification event.

Machine integers are natural numbers reduced modulo `2^32` (ULONG) or
`2^64` (ULONG64) where the C expression is evaluated in that type.
NTSTATUS is a signed 32-bit value and is embedded as an integer.
Pointers that may be null are `Option` values; reading a field through a
null pointer, and dividing by zero, end the run in `Outcome.fault`.
-/

namespace SAR

/-! ## Machine arithmetic -/

/-- Number of values of a ULONG (32 bits). -/
def ULONG_MOD : Nat := 4294967296

/-- Number of values of a ULONG64 (64 bits). -/
def ULONG64_MOD : Nat := 18446744073709551616

/-- Product of two ULONG values, evaluated in ULONG. -/
def mulULONG (a b : Nat) : Nat := (a * b) % ULONG_MOD

/-- Modelled from the spec: the ROUND_UP macro of sar.h, which is not among the
sources. The spec reads it as rounding `N` up to a whole multiple of `S`; it is
taken in its usual form `((N + S - 1) / S) * S`. A macro expands in place, so
with ULONG operands (wavert.cpp lines 54-60) every operation wraps at `2^32`.
`S = 0` is a division by zero and gives `none`. -/
def ROUND_UP (N S : Nat) : Option Nat :=
  if S % ULONG_MOD = 0 then none
  else some ((((N + S - 1) % ULONG_MOD) / (S % ULONG_MOD) * (S % ULONG_MOD)) % ULONG_MOD)

/-- The operand `minimumFrameCount * periodSizeBytes * activeChannelCount` of
lines 56-58, evaluated left to right in ULONG. -/
def minimumBytes (minimumFrameCount periodSizeBytes activeChannelCount : Nat) : Nat :=
  mulULONG (mulULONG minimumFrameCount periodSizeBytes) activeChannelCount

/-- The value `actualSize` of lines 54-59. -/
def actualSize (requestedBufferSize minimumFrameCount periodSizeBytes activeChannelCount
    sampleSize : Nat) : Option Nat :=
  ROUND_UP
    (max requestedBufferSize (minimumBytes minimumFrameCount periodSizeBytes activeChannelCount))
    (mulULONG sampleSize activeChannelCount)

/-- The value `viewSize` of line 60; `cellSize` is SAR_BUFFER_CELL_SIZE, a constant of
sar.h that is not among the sources and is therefore a parameter. It is taken to be a
plain integer constant, as lines 73, 90 and 115 use it: the round-up is then computed
on the ULONG `actualSize` in ULONG, and only its result is widened to SIZE_T. -/
def viewSize (cellSize actualSize : Nat) : Option Nat :=
  ROUND_UP actualSize cellSize

/-! ## Status codes -/

/-- NTSTATUS is a signed 32-bit value (LONG). -/
abbrev NTSTATUS := Int

def STATUS_SUCCESS : NTSTATUS := 0
/-- The value 0xC0000001 read as a LONG. -/
def STATUS_UNSUCCESSFUL : NTSTATUS := 0xC0000001 - 4294967296
/-- The value 0xC0000002 read as a LONG. -/
def STATUS_NOT_IMPLEMENTED : NTSTATUS := 0xC0000002 - 4294967296
/-- The value 0xC000009A read as a LONG. -/
def STATUS_INSUFFICIENT_RESOURCES : NTSTATUS := 0xC000009A - 4294967296
/-- The value 0xC0000225 read as a LONG. -/
def STATUS_NOT_FOUND : NTSTATUS := 0xC0000225 - 4294967296

/-- The test `NT_SUCCESS(status)`, that is `status >= 0`. -/
def NT_SUCCESS (status : NTSTATUS) : Bool := decide (0 ≤ status)

/-! ## Data model -/

/-- Modelled from the spec: the per-endpoint register block (SarEndpointRegisters of
sar.h), with the five fields the spec lists. -/
structure SarEndpointRegisters where
  positionRegister : Nat
  generation : Nat
  bufferOffset : Nat
  bufferSize : Nat
  notificationCount : Nat
deriving DecidableEq, Repr

/-- Modelled from the spec: the fields of SarControlContext (sar.h) that wavert.cpp
uses. `bufferSection = none` is the null section handle; `bufferMap` holds one bit per
cell, `true` for a set bit; `handleQueue` holds the posted (handle, data) pairs. -/
structure SarControlContext where
  mutexHeld : Bool
  bufferSection : Option Nat
  bufferMap : List Bool
  minimumFrameCount : Nat
  periodSizeBytes : Nat
  sampleSize : Nat
  handleQueue : List (Nat × Nat)
deriving DecidableEq, Repr

/-- Modelled from the spec: the fields of SarEndpoint (sar.h) that wavert.cpp uses.
`owner` is the control context the endpoint points to, `refCount` the number of
references held on the endpoint, `registers` the endpoint's slot of the register file
that SarReadEndpointRegisters and SarWriteEndpointRegisters access. `index` is
narrower than 64 bits (line 270 widens it with a cast to ULONG64). -/
structure SarEndpoint where
  owner : SarControlContext
  index : Nat
  channelCount : Nat
  activeChannelCount : Nat
  activeCellIndex : Nat
  activeViewSize : Nat
  activeBufferSize : Nat
  refCount : Nat
  registers : SarEndpointRegisters
deriving DecidableEq, Repr

/-- Modelled from the spec: the per-process context of an endpoint
(SarEndpointProcessContext of sar.h). -/
structure SarEndpointProcessContext where
  bufferUVA : Nat
  registerFileUVA : Nat
deriving DecidableEq, Repr

/-- KSRTAUDIO_BUFFER of ksmedia.h; a null BufferAddress is 0. -/
structure KSRTAUDIO_BUFFER where
  BufferAddress : Nat
  ActualBufferSize : Nat
  CallMemoryBarrier : Bool
deriving DecidableEq, Repr

/-- KSRTAUDIO_HWLATENCY of ksmedia.h. -/
structure KSRTAUDIO_HWLATENCY where
  FifoSize : Nat
  ChipsetDelay : Nat
  CodecDelay : Nat
deriving DecidableEq, Repr

/-- KSRTAUDIO_HWREGISTER of ksmedia.h. The address
`&context->registerFileUVA[endpoint->index].positionRegister` is kept as the pair of
the register file base and the slot index. -/
structure KSRTAUDIO_HWREGISTER where
  Register : Nat × Nat
  Width : Nat
  Numerator : Nat
  Denominator : Nat
  Accuracy : Nat
deriving DecidableEq, Repr

/-- The calls a handler makes to routines defined outside wavert.cpp, with the
arguments that matter, in program order. -/
inductive Call where
  | getEndpointFromIrp
  | releaseEndpointAndContext
  | getOrCreateEndpointProcessContext
  | acquireFastMutex
  | releaseFastMutex
  | findClearBitsAndSet (numberToFind : Nat)
  | mapViewOfSection (sectionHandle sectionOffset viewSize : Nat)
  | readEndpointRegisters
  | writeEndpointRegisters (regs : SarEndpointRegisters)
  | postHandleQueue (handle data : Nat)
deriving DecidableEq, Repr

/-- What a request sees: the endpoint its IRP resolves to (`none` when there is no
such endpoint), the context of the calling process for that endpoint if one exists
already, and the log of calls made so far. -/
structure World where
  endpoint : Option SarEndpoint
  processContext : Option SarEndpointProcessContext
  calls : List Call
deriving DecidableEq, Repr

/-- The same objects once the endpoint pointer is known to be non-null. -/
structure Heap where
  endpoint : SarEndpoint
  processContext : Option SarEndpointProcessContext
  calls : List Call
deriving DecidableEq, Repr

def Heap.toWorld (h : Heap) : World := ⟨some h.endpoint, h.processContext, h.calls⟩

def Heap.log (h : Heap) (c : Call) : Heap := { h with calls := h.calls ++ [c] }

/-- Results of the steps whose outcome is decided outside wavert.cpp. -/
structure Env where
  processContextStatus : NTSTATUS
  newRegisterFileUVA : Nat
  mapStatus : NTSTATUS
  mappedAddress : Nat
  readStatus : NTSTATUS
  writeStatus : NTSTATUS
  postStatus : NTSTATUS
deriving DecidableEq, Repr

/-- How a handler ends: it returns a status together with the world and the caller's
data as they are then, or it stops in a fault (a read through a null pointer, or a
division by zero). -/
inductive Outcome (α : Type) where
  | returned (status : NTSTATUS) (w : World) (data : α)
  | fault
deriving DecidableEq, Repr

/-- Reading a field through a pointer that may be null; `none` is the access fault. -/
def deref {α β : Type} (p : Option α) (field : α → β) : Option β := p.map field

/-! ## Routines defined outside wavert.cpp -/

/-- Modelled from the spec: SarGetEndpointFromIrp(irp, TRUE) resolves the request to
its endpoint and takes a reference on it; the pointer it returns is the `endpoint`
field of the resulting world, null when there is no such endpoint. -/
def SarGetEndpointFromIrp (w : World) : World :=
  { w with
    endpoint := w.endpoint.map (fun ep => { ep with refCount := ep.refCount + 1 })
    calls := w.calls ++ [Call.getEndpointFromIrp] }

/-- Modelled from the spec: SarReleaseEndpointAndContext gives back one reference. -/
def SarReleaseEndpointAndContext (h : Heap) : Heap :=
  { h with
    endpoint := { h.endpoint with refCount := h.endpoint.refCount - 1 }
    calls := h.calls ++ [Call.releaseEndpointAndContext] }

/-- Modelled from the spec: SarGetOrCreateEndpointProcessContext is an idempotent
get-or-create; on success the context of the calling process exists afterwards (the
one already there, or a new one), on failure nothing changes. -/
def SarGetOrCreateEndpointProcessContext (env : Env) (h : Heap) : NTSTATUS × Heap :=
  let h := h.log Call.getOrCreateEndpointProcessContext
  if NT_SUCCESS env.processContextStatus then
    (env.processContextStatus,
      { h with processContext := some (h.processContext.getD ⟨0, env.newRegisterFileUVA⟩) })
  else (env.processContextStatus, h)

def ExAcquireFastMutex (h : Heap) : Heap :=
  { h with
    endpoint := { h.endpoint with owner := { h.endpoint.owner with mutexHeld := true } }
    calls := h.calls ++ [Call.acquireFastMutex] }

def ExReleaseFastMutex (h : Heap) : Heap :=
  { h with
    endpoint := { h.endpoint with owner := { h.endpoint.owner with mutexHeld := false } }
    calls := h.calls ++ [Call.releaseFastMutex] }

/-- Whether the `n` bits from position `i` on lie inside the bitmap and are all clear. -/
def clearRunAt (bits : List Bool) (i n : Nat) : Bool :=
  decide (i + n ≤ bits.length) && ((bits.drop i).take n).all fun b => !b

/-- First position of a run of `n` clear bits, searching from position 0. -/
def RtlFindClearBits (bits : List Bool) (n : Nat) : Option Nat :=
  (List.range (bits.length + 1)).find? fun i => clearRunAt bits i n

/-- The bitmap with the `n` bits from position `i` on set. -/
def RtlSetBits (bits : List Bool) (i n : Nat) : List Bool :=
  bits.take i ++ List.replicate n true ++ bits.drop (i + n)

/-- Modelled from the spec: RtlFindClearBitsAndSet with hint 0 is a first-fit search
for `n` contiguous clear bits; it sets them and returns the index of the first, or
returns 0xFFFFFFFF and leaves the bitmap alone. -/
def RtlFindClearBitsAndSet (h : Heap) (n : Nat) : Nat × Heap :=
  let h := h.log (Call.findClearBitsAndSet n)
  match RtlFindClearBits h.endpoint.owner.bufferMap n with
  | some i =>
    (i, { h with endpoint := { h.endpoint with owner := { h.endpoint.owner with
            bufferMap := RtlSetBits h.endpoint.owner.bufferMap i n } } })
  | none => (0xFFFFFFFF, h)

/-- ZwMapViewOfSection: the status and the address come from the system. -/
def ZwMapViewOfSection (env : Env) (h : Heap) (sectionHandle sectionOffset viewSize : Nat) :
    NTSTATUS × Nat × Heap :=
  let h := h.log (Call.mapViewOfSection sectionHandle sectionOffset viewSize)
  if NT_SUCCESS env.mapStatus then (env.mapStatus, env.mappedAddress, h)
  else (env.mapStatus, 0, h)

/-- Modelled from the spec: SarReadEndpointRegisters copies the endpoint's register
block into `regs` when it succeeds and leaves `regs` as it was otherwise. -/
def SarReadEndpointRegisters (env : Env) (h : Heap) (regs : SarEndpointRegisters) :
    NTSTATUS × SarEndpointRegisters × Heap :=
  let h := h.log Call.readEndpointRegisters
  if NT_SUCCESS env.readStatus then (env.readStatus, h.endpoint.registers, h)
  else (env.readStatus, regs, h)

/-- Modelled from the spec: SarWriteEndpointRegisters stores `regs` as the endpoint's
register block when it succeeds. -/
def SarWriteEndpointRegisters (env : Env) (h : Heap) (regs : SarEndpointRegisters) :
    NTSTATUS × Heap :=
  let h := h.log (Call.writeEndpointRegisters regs)
  if NT_SUCCESS env.writeStatus then
    (env.writeStatus, { h with endpoint := { h.endpoint with registers := regs } })
  else (env.writeStatus, h)

/-- Modelled from the spec: SarPostHandleQueue submits the pair (handle, data) to the
queue and returns a status; the pair is in the queue when the post succeeded. -/
def SarPostHandleQueue (env : Env) (h : Heap) (handle data : Nat) : NTSTATUS × Heap :=
  let h := h.log (Call.postHandleQueue handle data)
  if NT_SUCCESS env.postStatus then
    (env.postStatus, { h with endpoint := { h.endpoint with owner := { h.endpoint.owner with
        handleQueue := h.endpoint.owner.handleQueue ++ [(handle, data)] } } })
  else (env.postStatus, h)

/-! ## The handlers of wavert.cpp -/

/-- Lines 39-43 of SarKsPinRtGetBufferCore: an active channel count that was never set
is replaced by the declared channel count. -/
def assumeChannelCount (h : Heap) : Heap :=
  if h.endpoint.activeChannelCount = 0 then
    { h with endpoint := { h.endpoint with activeChannelCount := h.endpoint.channelCount } }
  else h

/-- SarKsPinRtGetBufferCore, wavert.cpp lines 19-132. `cellSize` is the constant
SAR_BUFFER_CELL_SIZE; a null `baseAddress` is 0. -/
def SarKsPinRtGetBufferCore (env : Env) (cellSize : Nat) (w : World)
    (baseAddress requestedBufferSize notificationCount : Nat) (buffer : KSRTAUDIO_BUFFER) :
    Outcome KSRTAUDIO_BUFFER :=
  -- line 23
  let w := SarGetEndpointFromIrp w
  -- line 24: controlContext = endpoint->owner, read before the null test of line 28
  match deref w.endpoint SarEndpoint.owner with
  | none => Outcome.fault
  | some _ =>
  -- lines 28-31
  match w.endpoint with
  | none => Outcome.returned STATUS_NOT_FOUND w buffer
  | some endpoint =>
  let h : Heap := ⟨endpoint, w.processContext, w.calls⟩
  -- lines 33-37
  if baseAddress ≠ 0 then
    Outcome.returned STATUS_NOT_IMPLEMENTED (SarReleaseEndpointAndContext h).toWorld buffer
  else
  -- lines 39-43
  let h := assumeChannelCount h
  -- lines 45-52
  match SarGetOrCreateEndpointProcessContext env h with
  | (status, h) =>
  if !NT_SUCCESS status then
    Outcome.returned status (SarReleaseEndpointAndContext h).toWorld buffer
  else
  -- lines 54-59
  match actualSize requestedBufferSize h.endpoint.owner.minimumFrameCount
      h.endpoint.owner.periodSizeBytes h.endpoint.activeChannelCount
      h.endpoint.owner.sampleSize with
  | none => Outcome.fault
  | some actualSize =>
  -- line 60
  match viewSize cellSize actualSize with
  | none => Outcome.fault
  | some viewSize =>
  -- line 62
  let h := ExAcquireFastMutex h
  -- lines 64-69
  match h.endpoint.owner.bufferSection with
  | none =>
    Outcome.returned STATUS_INSUFFICIENT_RESOURCES
      (SarReleaseEndpointAndContext (ExReleaseFastMutex h)).toWorld buffer
  | some bufferSection =>
  -- lines 71-73
  match RtlFindClearBitsAndSet h ((viewSize / cellSize) % ULONG_MOD) with
  | (cellIndex, h) =>
  -- lines 75-80
  if cellIndex = 0xFFFFFFFF then
    Outcome.returned STATUS_INSUFFICIENT_RESOURCES
      (SarReleaseEndpointAndContext (ExReleaseFastMutex h)).toWorld buffer
  else
  -- lines 82-85
  let h : Heap := { h with endpoint := { h.endpoint with
    activeCellIndex := cellIndex, activeViewSize := viewSize, activeBufferSize := actualSize } }
  let h := ExReleaseFastMutex h
  -- lines 90-102
  let sectionOffset := mulULONG cellIndex cellSize
  match ZwMapViewOfSection env h bufferSection sectionOffset viewSize with
  | (status, mappedAddress, h) =>
  if !NT_SUCCESS status then
    Outcome.returned status (SarReleaseEndpointAndContext h).toWorld buffer
  else
  -- lines 104-113
  let regs : SarEndpointRegisters := ⟨0, 0, 0, 0, 0⟩
  let h : Heap := { h with
    processContext := Option.map (fun pc => { pc with bufferUVA := mappedAddress })
      h.processContext }
  match SarReadEndpointRegisters env h regs with
  | (status, regs, h) =>
  if !NT_SUCCESS status then
    Outcome.returned status (SarReleaseEndpointAndContext h).toWorld buffer
  else
  -- lines 115-125
  let regs : SarEndpointRegisters := { regs with
    bufferOffset := mulULONG cellIndex cellSize
    bufferSize := actualSize
    notificationCount := notificationCount }
  match SarWriteEndpointRegisters env h regs with
  | (status, h) =>
  if !NT_SUCCESS status then
    Outcome.returned status (SarReleaseEndpointAndContext h).toWorld buffer
  else
  -- lines 127-131
  let buffer : KSRTAUDIO_BUFFER := { buffer with
    ActualBufferSize := actualSize
    BufferAddress := mappedAddress
    CallMemoryBarrier := false }
  Outcome.returned STATUS_SUCCESS (SarReleaseEndpointAndContext h).toWorld buffer

/-- SarKsPinRtGetBuffer, lines 134-142: the notification count is 0. -/
def SarKsPinRtGetBuffer (env : Env) (cellSize : Nat) (w : World)
    (baseAddress requestedBufferSize : Nat) (buffer : KSRTAUDIO_BUFFER) :
    Outcome KSRTAUDIO_BUFFER :=
  SarKsPinRtGetBufferCore env cellSize w baseAddress requestedBufferSize 0 buffer

/-- SarKsPinRtGetBufferWithNotification, lines 144-154. -/
def SarKsPinRtGetBufferWithNotification (env : Env) (cellSize : Nat) (w : World)
    (baseAddress requestedBufferSize notificationCount : Nat) (buffer : KSRTAUDIO_BUFFER) :
    Outcome KSRTAUDIO_BUFFER :=
  SarKsPinRtGetBufferCore env cellSize w baseAddress requestedBufferSize notificationCount
    buffer

/-- SarKsPinRtGetHwLatency, lines 168-184. -/
def SarKsPinRtGetHwLatency (w : World) (latency : KSRTAUDIO_HWLATENCY) :
    Outcome KSRTAUDIO_HWLATENCY :=
  let w := SarGetEndpointFromIrp w
  match w.endpoint with
  | none => Outcome.returned STATUS_UNSUCCESSFUL w latency
  | some endpoint =>
  let h : Heap := ⟨endpoint, w.processContext, w.calls⟩
  let latency : KSRTAUDIO_HWLATENCY := { latency with
    FifoSize := 0, ChipsetDelay := 0, CodecDelay := 0 }
  Outcome.returned STATUS_SUCCESS (SarReleaseEndpointAndContext h).toWorld latency

/-- SarKsPinRtGetPositionRegister, lines 195-226. -/
def SarKsPinRtGetPositionRegister (env : Env) (w : World) (reg : KSRTAUDIO_HWREGISTER) :
    Outcome KSRTAUDIO_HWREGISTER :=
  let w := SarGetEndpointFromIrp w
  match w.endpoint with
  | none => Outcome.returned STATUS_UNSUCCESSFUL w reg
  | some endpoint =>
  let h : Heap := ⟨endpoint, w.processContext, w.calls⟩
  match SarGetOrCreateEndpointProcessContext env h with
  | (status, h) =>
  if !NT_SUCCESS status then
    Outcome.returned status (SarReleaseEndpointAndContext h).toWorld reg
  else
  -- lines 218-219: context->registerFileUVA is read through the context pointer
  match deref h.processContext SarEndpointProcessContext.registerFileUVA with
  | none => Outcome.fault
  | some registerFileUVA =>
  let reg : KSRTAUDIO_HWREGISTER := { reg with
    Register := (registerFileUVA, h.endpoint.index)
    Width := 32
    Accuracy := mulULONG h.endpoint.owner.periodSizeBytes h.endpoint.activeChannelCount
    Numerator := 0
    Denominator := 0 }
  Outcome.returned STATUS_SUCCESS (SarReleaseEndpointAndContext h).toWorld reg

/-- The value `regs.generation | ((ULONG64)endpoint->index << 32)` of line 270. -/
def associatedData (generation index : Nat) : Nat :=
  (generation ||| ((index % ULONG64_MOD) <<< 32) % ULONG64_MOD) % ULONG64_MOD

/-- SarKsPinRtRegisterNotificationEvent, lines 247-276; `notificationEvent` is the
handle `prop->NotificationEvent` of the request. `regs` is not initialised at line
252; its content before the read is never used and is taken as zero. -/
def SarKsPinRtRegisterNotificationEvent (env : Env) (w : World) (notificationEvent : Nat) :
    Outcome Unit :=
  let w := SarGetEndpointFromIrp w
  match w.endpoint with
  | none => Outcome.returned STATUS_UNSUCCESSFUL w ()
  | some endpoint =>
  let h : Heap := ⟨endpoint, w.processContext, w.calls⟩
  match SarReadEndpointRegisters env h ⟨0, 0, 0, 0, 0⟩ with
  | (status, regs, h) =>
  if !NT_SUCCESS status then
    Outcome.returned status (SarReleaseEndpointAndContext h).toWorld ()
  else
  match SarPostHandleQueue env h notificationEvent
      (associatedData regs.generation h.endpoint.index) with
  | (status, h) =>
  Outcome.returned status (SarReleaseEndpointAndContext h).toWorld ()

/-! ## Notions used to state the properties -/

/-- The channel count in force after lines 39-43: the declared count when the active
count was never set. -/
def negotiatedChannelCount (endpoint : SarEndpoint) : Nat :=
  if endpoint.activeChannelCount = 0 then endpoint.channelCount
  else endpoint.activeChannelCount

/-- Calls that map a view of the section or write the register block. -/
def Call.mapsOrWrites : Call → Bool
  | Call.mapViewOfSection _ _ _ => true
  | Call.writeEndpointRegisters _ => true
  | _ => false

/-- The reference count of the endpoint a world resolves to. -/
def World.refCount (w : World) : Option Nat := w.endpoint.map SarEndpoint.refCount

/-- The handler returned, the endpoint has the reference count it had in `w`, and the
handler made exactly one lookup and exactly one release on top of those logged in `w`. -/
def releasedOnce {α : Type} (w : World) : Outcome α → Prop
  | Outcome.returned _ w' _ =>
    w'.refCount = w.refCount ∧
    w'.calls.count Call.getEndpointFromIrp = w.calls.count Call.getEndpointFromIrp + 1 ∧
    w'.calls.count Call.releaseEndpointAndContext =
      w.calls.count Call.releaseEndpointAndContext + 1
  | Outcome.fault => False

/-- The status of the first step after the allocation that fails: the mapping, else
the register read, else the register write. -/
def firstFailure (env : Env) : NTSTATUS :=
  if !NT_SUCCESS env.mapStatus then env.mapStatus
  else if !NT_SUCCESS env.readStatus then env.readStatus
  else env.writeStatus

/-- The calls of a buffer acquisition that runs to the end, in program order. -/
def successCalls (numberToFind sectionHandle sectionOffset viewSize : Nat)
    (regs : SarEndpointRegisters) : List Call :=
  [Call.getEndpointFromIrp, Call.getOrCreateEndpointProcessContext, Call.acquireFastMutex,
   Call.findClearBitsAndSet numberToFind, Call.releaseFastMutex,
   Call.mapViewOfSection sectionHandle sectionOffset viewSize, Call.readEndpointRegisters,
   Call.writeEndpointRegisters regs, Call.releaseEndpointAndContext]

/-- The register block that lines 115-117 build from the block read: bufferOffset,
bufferSize and notificationCount are replaced, generation and positionRegister kept. -/
def acquiredRegisters (regs : SarEndpointRegisters)
    (cellIndex cellSize actualSize notificationCount : Nat) : SarEndpointRegisters :=
  { regs with
    bufferOffset := mulULONG cellIndex cellSize
    bufferSize := actualSize
    notificationCount := notificationCount }

/-- The world a buffer acquisition leaves when it runs to the end on endpoint `ep` of
world `w`, having allocated the run at `cellIndex`: the run is set in the bitmap, the
allocation is recorded on the endpoint, the register block is the one of
`acquiredRegisters`, the reference count is the one before the call, the mutex is
released, the process context holds the mapped address, and the log gains the calls
of `successCalls`, whose mapping is at the byte offset written to bufferOffset. -/
def acquiredWorld (env : Env) (cellSize : Nat) (w : World) (ep : SarEndpoint)
    (actualSize viewSize sectionHandle cellIndex notificationCount : Nat) : World :=
  ⟨some { ep with
      owner := { ep.owner with
        mutexHeld := false
        bufferMap := RtlSetBits ep.owner.bufferMap cellIndex ((viewSize / cellSize) % ULONG_MOD) }
      activeChannelCount := negotiatedChannelCount ep
      activeCellIndex := cellIndex
      activeViewSize := viewSize
      activeBufferSize := actualSize
      registers := acquiredRegisters ep.registers cellIndex cellSize actualSize
        notificationCount },
    some { (w.processContext.getD ⟨0, env.newRegisterFileUVA⟩) with
      bufferUVA := env.mappedAddress },
    w.calls ++ successCalls ((viewSize / cellSize) % ULONG_MOD) sectionHandle
      (mulULONG cellIndex cellSize) viewSize
      (acquiredRegisters ep.registers cellIndex cellSize actualSize notificationCount)⟩

/-- A control context with a section of four cells, the first one in use. -/
def sampleContext : SarControlContext :=
  ⟨false, some 7, [true, false, false, false], 4, 256, 4, []⟩

/-- An endpoint with two declared channels whose active channel count was never set;
its register block holds generation 5 and its index is 3. -/
def sampleEndpoint : SarEndpoint :=
  ⟨sampleContext, 3, 2, 0, 0, 0, 0, 1, ⟨9, 5, 0, 0, 0⟩⟩

def sampleWorld : World := ⟨some sampleEndpoint, none, []⟩

/-- A request whose IRP resolves to no endpoint. -/
def emptyWorld : World := ⟨none, none, []⟩

/-- Every step outside wavert.cpp succeeds; the view is mapped at 8192. -/
def allSucceed : Env := ⟨0, 4096, 0, 8192, 0, 0, 0⟩

/-- The sample control context with every cell in use. -/
def fullContext : SarControlContext := { sampleContext with bufferMap := [true, true, true, true] }

def fullWorld : World := ⟨some { sampleEndpoint with owner := fullContext }, none, []⟩

/-- The sample control context before the shared section exists. -/
def noSectionContext : SarControlContext := { sampleContext with bufferSection := none }

def noSectionWorld : World := ⟨some { sampleEndpoint with owner := noSectionContext }, none, []⟩

/-- A control context whose buffer layout was never set: no section and a sample size
of 0. -/
def unconfiguredContext : SarControlContext := ⟨false, none, [], 0, 0, 0, []⟩

def unconfiguredWorld : World :=
  ⟨some { sampleEndpoint with owner := unconfiguredContext }, none, []⟩

/-- The sample endpoint after its two channels were negotiated. -/
def negotiatedWorld : World :=
  ⟨some { sampleEndpoint with activeChannelCount := 2 }, none, []⟩

/-- An endpoint that declares no channel. -/
def noChannelWorld : World := ⟨some { sampleEndpoint with channelCount := 0 }, none, []⟩

/-- The sample world after a buffer acquisition of 1000 bytes in which every step
succeeds, with cells of 65536 bytes: the second cell is allocated, the active channel
count is the declared one, and the register block holds the new buffer geometry. -/
def sampleWorldAcquired : World :=
  ⟨some { sampleEndpoint with
      owner := { sampleContext with bufferMap := [true, true, false, false] }
      activeChannelCount := 2
      activeCellIndex := 1
      activeViewSize := 65536
      activeBufferSize := 2048
      registers := ⟨9, 5, 65536, 2048, 0⟩ },
    some ⟨8192, 4096⟩,
    successCalls 1 7 65536 65536 ⟨9, 5, 65536, 2048, 0⟩⟩

/-- The value 0xC0000017 read as a LONG. -/
def STATUS_NO_MEMORY : NTSTATUS := 0xC0000017 - 4294967296

/-- The process context cannot be obtained. -/
def processContextFails : Env := { allSucceed with processContextStatus := STATUS_NO_MEMORY }

/-- The view cannot be mapped. -/
def mappingFails : Env := { allSucceed with mapStatus := STATUS_NO_MEMORY }

/-! ## Theorems: buffer sizes -/

/-- Rounding up in unbounded arithmetic: the result is a multiple of `S`, lies at or
above `N`, and does not exceed `N + S - 1`. -/
theorem roundUp_nat (N S : Nat) (hS : 0 < S) :
    S ∣ (N + S - 1) / S * S ∧ N ≤ (N + S - 1) / S * S ∧
      (N + S - 1) / S * S ≤ N + S - 1 := by
  refine ⟨Dvd.intro_left _ rfl, ?_, Nat.div_mul_le_self _ _⟩
  have h1 : N + S - 1 < (N + S - 1) / S * S + S := by
    have := Nat.lt_div_mul_add (a := N + S - 1) hS
    omega
  omega

/-- Without a wrap in `N + S - 1` the macro computes the exact round-up. -/
theorem ROUND_UP_exact (N S : Nat) (hS : 0 < S) (hSlt : S < ULONG_MOD)
    (hlt : N + S - 1 < ULONG_MOD) :
    ∃ r, ROUND_UP N S = some r ∧ r = (N + S - 1) / S * S ∧ S ∣ r ∧ N ≤ r ∧
      r < ULONG_MOD := by
  obtain ⟨hd, hge, hle⟩ := roundUp_nat N S hS
  have hr : (N + S - 1) / S * S < ULONG_MOD := by omega
  refine ⟨(N + S - 1) / S * S, ?_, rfl, hd, hge, hr⟩
  unfold ROUND_UP
  rw [Nat.mod_eq_of_lt hSlt, Nat.mod_eq_of_lt hlt, Nat.mod_eq_of_lt hr, if_neg (by omega)]

theorem mulULONG_lt (a b : Nat) : mulULONG a b < ULONG_MOD :=
  Nat.mod_lt _ (by decide)

theorem mulULONG_exact (a b : Nat) (h : a * b < ULONG_MOD) : mulULONG a b = a * b :=
  Nat.mod_eq_of_lt h

theorem minimumBytes_exact (m p c : Nat) (h : m * p * c < ULONG_MOD) :
    minimumBytes m p c = m * p * c ∨ c = 0 := by
  rcases Nat.eq_zero_or_pos c with hc | hc
  · exact Or.inr hc
  · left
    have hmp : m * p < ULONG_MOD := lt_of_le_of_lt (Nat.le_mul_of_pos_right _ hc) h
    unfold minimumBytes
    rw [mulULONG_exact m p hmp, mulULONG_exact _ c h]

/-- No ULONG value is a multiple of 8 and at least 0xFFFFFFFF: for an 8-byte frame and
a requested size of 0xFFFFFFFF no value of actualSize can be both a multiple of the
frame size and at least the requested size, whatever the rounding macro computes. -/
theorem no_ulong_multiple_of_8_at_top (a : Nat) (ha : a < ULONG_MOD) :
    ¬ (8 ∣ a ∧ 4294967295 ≤ a) := by
  rintro ⟨hd, hge⟩
  have hM : ULONG_MOD = 4294967296 := rfl
  omega

/-- At the largest ULONG and any cell size from 2 on, the rounding addition wraps and
the view size is 0. -/
theorem viewSize_wraps (cellSize : Nat) (h2 : 2 ≤ cellSize) (hlt : cellSize < ULONG_MOD) :
    viewSize cellSize 4294967295 = some 0 := by
  have hM : ULONG_MOD = 4294967296 := rfl
  unfold viewSize ROUND_UP
  rw [Nat.mod_eq_of_lt hlt, if_neg (by omega)]
  have h1 : (4294967295 + cellSize - 1) % ULONG_MOD = cellSize - 2 := by
    rw [hM]; omega
  rw [h1, Nat.div_eq_of_lt (by omega)]
  simp

/-- C1, counterexample: with requestedSize = 0xFFFFFFFF, minimumFrameCount = 4,
periodSizeBytes = 256, activeChannelCount = 2 and sampleSize = 4 the addition inside
the round-up wraps and actualSize is 0, below both the requested size and the 2048
minimum bytes. With sampleSize = 65536 and activeChannelCount = 65536, both positive,
the frame size wraps to 0 and the round-up divides by zero. -/
theorem actualSize_wraps_at_top :
    actualSize 4294967295 4 256 2 4 = some 0 ∧ ¬ (4294967295 ≤ 0) ∧ ¬ (4 * 256 * 2 ≤ 0) ∧
      actualSize 1000 4 256 65536 65536 = none := by
  decide

/-- C1, amended: when the frame size sampleSize * activeChannelCount is non-zero as a
ULONG and the addition inside the round-up does not wrap, actualSize is defined, is a
multiple of the frame size, is at least the minimum bytes and at least the requested
size, the two products being the ULONG values the code computes; where a product does
not wrap it is the exact product. -/
theorem actualSize_rounds_up
    (requestedBufferSize minimumFrameCount periodSizeBytes activeChannelCount sampleSize : Nat)
    (hframe : 0 < mulULONG sampleSize activeChannelCount)
    (hsum : max requestedBufferSize
        (minimumBytes minimumFrameCount periodSizeBytes activeChannelCount)
        + mulULONG sampleSize activeChannelCount - 1 < ULONG_MOD) :
    ∃ a, actualSize requestedBufferSize minimumFrameCount periodSizeBytes activeChannelCount
          sampleSize = some a ∧
      mulULONG sampleSize activeChannelCount ∣ a ∧
      minimumBytes minimumFrameCount periodSizeBytes activeChannelCount ≤ a ∧
      requestedBufferSize ≤ a ∧
      (sampleSize * activeChannelCount < ULONG_MOD → sampleSize * activeChannelCount ∣ a) ∧
      (minimumFrameCount * periodSizeBytes * activeChannelCount < ULONG_MOD →
        minimumFrameCount * periodSizeBytes * activeChannelCount ≤ a) := by
  obtain ⟨r, hr, -, hd, hge, -⟩ :=
    ROUND_UP_exact _ _ hframe (mulULONG_lt sampleSize activeChannelCount) hsum
  have hmin : minimumBytes minimumFrameCount periodSizeBytes activeChannelCount ≤ r :=
    le_trans (le_max_right _ _) hge
  refine ⟨r, hr, hd, hmin, le_trans (le_max_left _ _) hge, ?_, ?_⟩
  · intro h
    rw [← mulULONG_exact _ _ h]
    exact hd
  · intro h
    rcases minimumBytes_exact _ _ _ h with he | he
    · rw [← he]
      exact hmin
    · rw [he]
      simp

/-- C1, the example of the spec: minimumFrameCount = 4, periodSizeBytes = 256,
activeChannelCount = 2, sampleSize = 4, requestedSize = 1000 give actualSize = 2048,
a multiple of 8 that is at least 2048 and at least 1000. -/
theorem actualSize_rounds_up_witness :
    actualSize 1000 4 256 2 4 = some 2048 ∧
      ∃ a, actualSize 1000 4 256 2 4 = some a ∧ 4 * 2 ∣ a ∧ 4 * 256 * 2 ≤ a ∧ 1000 ≤ a := by
  refine ⟨by decide, ?_⟩
  obtain ⟨a, ha, -, -, hreq, hd, hmin⟩ :=
    actualSize_rounds_up 1000 4 256 2 4 (by decide) (by decide)
  exact ⟨a, ha, hd (by decide), hmin (by decide), hreq⟩

/-- C2, counterexample: requestedSize = 0xFFFFFFFF with one channel of one-byte samples
gives actualSize = 0xFFFFFFFF, and for a cell of 65536 bytes the view size computed
from it is 0: it is below actualSize and no cell is requested. -/
theorem viewSize_wraps_at_top :
    actualSize 4294967295 4 256 1 1 = some 4294967295 ∧
      viewSize 65536 4294967295 = some 0 ∧ ¬ (4294967295 ≤ 0) ∧
      (0 / 65536) % ULONG_MOD = 0 := by
  decide

/-- C2, amended: for a cell size from 1 to 2^32 - 1 and an actualSize for which
actualSize + cellSize - 1 does not wrap, viewSize is defined, is a multiple of the
cell size and at least actualSize, and the viewSize / cellSize cells requested from
the bitmap span exactly viewSize bytes, hence the whole buffer. -/
theorem viewSize_covers (cellSize a : Nat) (hpos : 0 < cellSize)
    (hcell : cellSize < ULONG_MOD) (hsum : a + cellSize - 1 < ULONG_MOD) :
    ∃ v, viewSize cellSize a = some v ∧ cellSize ∣ v ∧ a ≤ v ∧
      ((v / cellSize) % ULONG_MOD) * cellSize = v ∧
      a ≤ ((v / cellSize) % ULONG_MOD) * cellSize := by
  obtain ⟨r, hr, -, hd, hge, hlt⟩ := ROUND_UP_exact a cellSize hpos hcell hsum
  have hq : ((r / cellSize) % ULONG_MOD) * cellSize = r := by
    rw [Nat.mod_eq_of_lt (lt_of_le_of_lt (Nat.div_le_self _ _) hlt)]
    exact Nat.div_mul_cancel hd
  exact ⟨r, hr, hd, hge, hq, by rw [hq]; exact hge⟩

/-- C2, an instance: actualSize = 2048 with 65536-byte cells gives a view of one cell. -/
theorem viewSize_covers_witness :
    viewSize 65536 2048 = some 65536 ∧
      ∃ v, viewSize 65536 2048 = some v ∧ 65536 ∣ v ∧ 2048 ≤ v := by
  refine ⟨by decide, ?_⟩
  obtain ⟨v, hv, hd, hge, -, -⟩ := viewSize_covers 65536 2048 (by decide) (by decide) (by decide)
  exact ⟨v, hv, hd, hge⟩

/-! ## Theorems: the handlers -/

attribute [simp] SarGetEndpointFromIrp deref SarGetOrCreateEndpointProcessContext
  ExAcquireFastMutex ExReleaseFastMutex RtlFindClearBitsAndSet ZwMapViewOfSection
  SarReadEndpointRegisters SarWriteEndpointRegisters SarPostHandleQueue
  SarReleaseEndpointAndContext Heap.log Heap.toWorld World.refCount negotiatedChannelCount

/-- Lines 39-43 as one field update. -/
theorem assumeChannelCount_eq (h : Heap) :
    assumeChannelCount h =
      { h with endpoint := { h.endpoint with
          activeChannelCount := negotiatedChannelCount h.endpoint } } := by
  unfold assumeChannelCount negotiatedChannelCount
  split <;> simp_all

/-- The round-up is undefined exactly when its divisor is zero as a ULONG. -/
theorem ROUND_UP_eq_none_iff (N S : Nat) : ROUND_UP N S = none ↔ S % ULONG_MOD = 0 := by
  unfold ROUND_UP
  split <;> simp_all

/-- A failing status is not STATUS_SUCCESS. -/
theorem ne_success_of_not_NT_SUCCESS (status : NTSTATUS) (h : NT_SUCCESS status = false) :
    status ≠ STATUS_SUCCESS := by
  intro he
  rw [he] at h
  exact absurd h (by decide)

/-- When no position starts a clear run of `n` bits the search finds nothing. -/
theorem RtlFindClearBits_eq_none (bits : List Bool) (n : Nat)
    (h : ∀ i, clearRunAt bits i n = false) : RtlFindClearBits bits n = none := by
  simp [RtlFindClearBits, List.find?_eq_none, h]

/-- A position the search returns starts a clear run inside the bitmap. -/
theorem RtlFindClearBits_some (bits : List Bool) (n i : Nat)
    (h : RtlFindClearBits bits n = some i) : clearRunAt bits i n = true := by
  unfold RtlFindClearBits at h
  exact List.find?_some (p := fun i => clearRunAt bits i n) h

/-- Setting a run that lies inside the bitmap makes each of its bits read as set. -/
theorem RtlSetBits_run (bits : List Bool) (i n j : Nat) (hin : i + n ≤ bits.length)
    (hij : i ≤ j) (hjn : j < i + n) : (RtlSetBits bits i n)[j]? = some true := by
  unfold RtlSetBits
  have h1 : (List.take i bits).length = i := by simp; omega
  rw [List.append_assoc, List.getElem?_append_right (by omega), h1,
    List.getElem?_append_left (by simp; omega)]
  rw [List.getElem?_replicate, if_pos (by omega)]

/-- Every run of SarKsPinRtGetBufferCore on an existing endpoint: it stops in a division
by zero in one of the two round-ups, or it returns with the endpoint's reference count
restored after one lookup and one release, with the active channel count equal to the
negotiated one (untouched for a non-null base address), and a return of STATUS_SUCCESS
means the run took every step. -/
theorem getBufferCore_paths (env : Env) (cellSize : Nat) (w : World) (ep : SarEndpoint)
    (baseAddress requestedBufferSize notificationCount : Nat) (buffer : KSRTAUDIO_BUFFER)
    (hep : w.endpoint = some ep) :
    (SarKsPinRtGetBufferCore env cellSize w baseAddress requestedBufferSize notificationCount
        buffer = Outcome.fault ∧
      (mulULONG ep.owner.sampleSize (negotiatedChannelCount ep) = 0 ∨
        cellSize % ULONG_MOD = 0)) ∨
    ∃ status w' ep' buffer',
      SarKsPinRtGetBufferCore env cellSize w baseAddress requestedBufferSize notificationCount
        buffer = Outcome.returned status w' buffer' ∧
      w'.endpoint = some ep' ∧
      releasedOnce w (Outcome.returned status w' buffer') ∧
      ep'.activeChannelCount =
        (if baseAddress = 0 then negotiatedChannelCount ep else ep.activeChannelCount) ∧
      (status = STATUS_SUCCESS → ∃ a v s,
        baseAddress = 0 ∧
        actualSize requestedBufferSize ep.owner.minimumFrameCount ep.owner.periodSizeBytes
          (negotiatedChannelCount ep) ep.owner.sampleSize = some a ∧
        viewSize cellSize a = some v ∧
        ep.owner.bufferSection = some s ∧
        RtlFindClearBits ep.owner.bufferMap ((v / cellSize) % ULONG_MOD)
          = some ep'.activeCellIndex ∧
        ep'.registers = { ep.registers with
          bufferOffset := mulULONG ep'.activeCellIndex cellSize
          bufferSize := a
          notificationCount := notificationCount } ∧
        w'.calls = w.calls ++ successCalls ((v / cellSize) % ULONG_MOD) s
          (mulULONG ep'.activeCellIndex cellSize) v ep'.registers ∧
        buffer' = ⟨env.mappedAddress, a, false⟩) := by
  obtain ⟨e, p, c⟩ := w
  simp only at hep
  subst hep
  generalize ho : SarKsPinRtGetBufferCore env cellSize _ baseAddress requestedBufferSize
    notificationCount buffer = o
  by_cases hb : baseAddress = 0
  swap
  · simp [SarKsPinRtGetBufferCore, hb] at ho
    subst ho
    refine Or.inr ⟨_, _, _, _, rfl, rfl, ?_, ?_, ?_⟩
    · simp [releasedOnce, List.count_append, List.count_cons]
    · simp [hb]
    · intro h; exact absurd h (by decide)
  subst hb
  cases hpc : NT_SUCCESS env.processContextStatus
  · simp [SarKsPinRtGetBufferCore, assumeChannelCount_eq, hpc] at ho
    subst ho
    refine Or.inr ⟨_, _, _, _, rfl, rfl, ?_, ?_, ?_⟩
    · simp [releasedOnce, List.count_append, List.count_cons]
    · simp
    · intro h; exact absurd h (ne_success_of_not_NT_SUCCESS _ hpc)
  cases ha : actualSize requestedBufferSize ep.owner.minimumFrameCount ep.owner.periodSizeBytes
      (negotiatedChannelCount ep) ep.owner.sampleSize with
  | none =>
    have hz := (ROUND_UP_eq_none_iff _ _).1 ha
    rw [Nat.mod_eq_of_lt (mulULONG_lt _ _)] at hz
    simp only [negotiatedChannelCount] at ha
    simp [SarKsPinRtGetBufferCore, assumeChannelCount_eq, hpc, ha] at ho
    subst ho
    exact Or.inl ⟨rfl, Or.inl hz⟩
  | some a =>
  cases hv : viewSize cellSize a with
  | none =>
    simp only [negotiatedChannelCount] at ha
    simp [SarKsPinRtGetBufferCore, assumeChannelCount_eq, hpc, ha, hv] at ho
    subst ho
    exact Or.inl ⟨rfl, Or.inr ((ROUND_UP_eq_none_iff _ _).1 hv)⟩
  | some v =>
  have ha' := ha
  simp only [negotiatedChannelCount] at ha'
  cases hs : ep.owner.bufferSection with
  | none =>
    simp [SarKsPinRtGetBufferCore, assumeChannelCount_eq, hpc, ha', hv, hs] at ho
    subst ho
    refine Or.inr ⟨_, _, _, _, rfl, rfl, ?_, ?_, ?_⟩
    · simp [releasedOnce, List.count_append, List.count_cons]
    · simp
    · intro h; exact absurd h (by decide)
  | some s =>
  cases hf : RtlFindClearBits ep.owner.bufferMap ((v / cellSize) % ULONG_MOD) with
  | none =>
    simp [SarKsPinRtGetBufferCore, assumeChannelCount_eq, hpc, ha', hv, hs, hf] at ho
    subst ho
    refine Or.inr ⟨_, _, _, _, rfl, rfl, ?_, ?_, ?_⟩
    · simp [releasedOnce, List.count_append, List.count_cons]
    · simp
    · intro h; exact absurd h (by decide)
  | some i =>
  by_cases hi : i = 0xFFFFFFFF
  · simp [SarKsPinRtGetBufferCore, assumeChannelCount_eq, hpc, ha', hv, hs, hf, hi] at ho
    subst ho
    refine Or.inr ⟨_, _, _, _, rfl, rfl, ?_, ?_, ?_⟩
    · simp [releasedOnce, List.count_append, List.count_cons]
    · simp
    · intro h; exact absurd h (by decide)
  cases hm : NT_SUCCESS env.mapStatus
  · simp [SarKsPinRtGetBufferCore, assumeChannelCount_eq, hpc, ha', hv, hs, hf, hi, hm] at ho
    subst ho
    refine Or.inr ⟨_, _, _, _, rfl, rfl, ?_, ?_, ?_⟩
    · simp [releasedOnce, List.count_append, List.count_cons]
    · simp
    · intro h; exact absurd h (ne_success_of_not_NT_SUCCESS _ hm)
  cases hr : NT_SUCCESS env.readStatus
  · simp [SarKsPinRtGetBufferCore, assumeChannelCount_eq, hpc, ha', hv, hs, hf, hi, hm, hr] at ho
    subst ho
    refine Or.inr ⟨_, _, _, _, rfl, rfl, ?_, ?_, ?_⟩
    · simp [releasedOnce, List.count_append, List.count_cons]
    · simp
    · intro h; exact absurd h (ne_success_of_not_NT_SUCCESS _ hr)
  cases hw : NT_SUCCESS env.writeStatus
  · simp [SarKsPinRtGetBufferCore, assumeChannelCount_eq, hpc, ha', hv, hs, hf, hi, hm, hr, hw]
      at ho
    subst ho
    refine Or.inr ⟨_, _, _, _, rfl, rfl, ?_, ?_, ?_⟩
    · simp [releasedOnce, List.count_append, List.count_cons]
    · simp
    · intro h; exact absurd h (ne_success_of_not_NT_SUCCESS _ hw)
  · simp [SarKsPinRtGetBufferCore, assumeChannelCount_eq, hpc, ha', hv, hs, hf, hi, hm, hr, hw]
      at ho
    subst ho
    refine Or.inr ⟨_, _, _, _, rfl, rfl, ?_, ?_, ?_⟩
    · simp [releasedOnce, List.count_append, List.count_cons]
    · simp
    · intro _
      refine ⟨a, v, s, rfl, ?_, hv, ?_, ?_, rfl, ?_, rfl⟩ <;> first | rfl | exact hf

/-- For a 32-bit generation and a 32-bit index the token is generation + index * 2^32. -/
theorem associatedData_eq (generation index : Nat) (hg : generation < 4294967296)
    (hi : index < 4294967296) :
    associatedData generation index = generation + index * 4294967296 := by
  have hM : ULONG64_MOD = 18446744073709551616 := rfl
  have hshift : index <<< 32 = 4294967296 * index := by
    rw [Nat.shiftLeft_eq]; omega
  have hor : generation ||| 2 ^ 32 * index = 2 ^ 32 * index + generation := by
    rw [Nat.or_comm]
    exact (Nat.mul_add_lt_is_or (i := 32) hg index).symm
  unfold associatedData
  rw [Nat.mod_eq_of_lt (by omega : index < ULONG64_MOD), hshift,
    Nat.mod_eq_of_lt (by omega : 4294967296 * index < ULONG64_MOD)]
  have h2 : (4294967296 : Nat) = 2 ^ 32 := by norm_num
  rw [h2, hor, Nat.mod_eq_of_lt (by omega)]
  omega

/-- C5: when the endpoint exists and its register block is read, the handler posts
exactly one pair, the caller's event handle with the token
generation | (index << 32), whose low 32 bits are the generation and whose high 32
bits are the endpoint index, and it returns the status of that post. -/
theorem registerNotification_posts_token (env : Env) (w : World) (ep : SarEndpoint)
    (notificationEvent : Nat)
    (hep : w.endpoint = some ep)
    (hread : NT_SUCCESS env.readStatus = true)
    (hgen : ep.registers.generation < 4294967296)
    (hindex : ep.index < 4294967296) :
    ∃ w' token,
      SarKsPinRtRegisterNotificationEvent env w notificationEvent
        = Outcome.returned env.postStatus w' () ∧
      w'.calls = w.calls ++ [Call.getEndpointFromIrp, Call.readEndpointRegisters,
        Call.postHandleQueue notificationEvent token, Call.releaseEndpointAndContext] ∧
      (NT_SUCCESS env.postStatus = true →
        w'.endpoint.map (fun e => e.owner.handleQueue)
          = some (ep.owner.handleQueue ++ [(notificationEvent, token)])) ∧
      token = associatedData ep.registers.generation ep.index ∧
      token = ep.registers.generation ||| (ep.index <<< 32) ∧
      token % 4294967296 = ep.registers.generation ∧
      token / 4294967296 = ep.index ∧
      token < 18446744073709551616 := by
  obtain ⟨e, p, c⟩ := w
  simp only at hep
  subst hep
  have hval := associatedData_eq _ _ hgen hindex
  have hor : associatedData ep.registers.generation ep.index
      = ep.registers.generation ||| (ep.index <<< 32) := by
    rw [hval, Nat.shiftLeft_eq, Nat.or_comm, Nat.mul_comm]
    have := Nat.mul_add_lt_is_or (i := 32) hgen ep.index
    rw [← this]; omega
  generalize ho : SarKsPinRtRegisterNotificationEvent env _ notificationEvent = o
  cases hp : NT_SUCCESS env.postStatus
  · simp [SarKsPinRtRegisterNotificationEvent, hread, hp] at ho
    subst ho
    refine ⟨_, associatedData ep.registers.generation ep.index, rfl, ?_, ?_, rfl, hor, ?_, ?_, ?_⟩
    · simp
    · simp
    · omega
    · omega
    · omega
  · simp [SarKsPinRtRegisterNotificationEvent, hread, hp] at ho
    subst ho
    refine ⟨_, associatedData ep.registers.generation ep.index, rfl, ?_, ?_, rfl, hor, ?_, ?_, ?_⟩
    · simp
    · simp
    · omega
    · omega
    · omega
/-- C5, the example of the spec: generation 5 and endpoint index 3 submit the token
0x0000000300000005 together with the caller's handle. -/
theorem registerNotification_posts_token_witness :
    associatedData 5 3 = 0x0000000300000005 ∧
      ∃ w', SarKsPinRtRegisterNotificationEvent allSucceed sampleWorld 77
          = Outcome.returned 0 w' () ∧
        w'.calls = [Call.getEndpointFromIrp, Call.readEndpointRegisters,
          Call.postHandleQueue 77 0x0000000300000005, Call.releaseEndpointAndContext] := by
  refine ⟨by decide, ?_⟩
  obtain ⟨w', token, hrun, hcalls, -, htoken, -⟩ :=
    registerNotification_posts_token allSucceed sampleWorld sampleEndpoint 77 rfl
      (by decide) (by decide) (by decide)
  have ht : token = 0x0000000300000005 := by rw [htoken]; decide
  subst ht
  exact ⟨w', hrun, hcalls⟩

/-- C4: on an existing endpoint a non-null base address makes the core, and both of its
entry points, return STATUS_NOT_IMPLEMENTED; the world is the one before the call with
a lookup and a release added to the log, so the bitmap, the allocation fields, the
register block and the reference count are unchanged, and the caller's buffer data
is unchanged as well. -/
theorem getBuffer_base_address_not_implemented (env : Env) (cellSize : Nat) (w : World)
    (ep : SarEndpoint) (baseAddress requestedBufferSize notificationCount : Nat)
    (buffer : KSRTAUDIO_BUFFER)
    (hep : w.endpoint = some ep) (hbase : baseAddress ≠ 0) :
    SarKsPinRtGetBufferCore env cellSize w baseAddress requestedBufferSize notificationCount
        buffer
      = Outcome.returned STATUS_NOT_IMPLEMENTED
          { w with calls := w.calls ++
              [Call.getEndpointFromIrp, Call.releaseEndpointAndContext] } buffer ∧
    SarKsPinRtGetBuffer env cellSize w baseAddress requestedBufferSize buffer
      = Outcome.returned STATUS_NOT_IMPLEMENTED
          { w with calls := w.calls ++
              [Call.getEndpointFromIrp, Call.releaseEndpointAndContext] } buffer ∧
    SarKsPinRtGetBufferWithNotification env cellSize w baseAddress requestedBufferSize
        notificationCount buffer
      = Outcome.returned STATUS_NOT_IMPLEMENTED
          { w with calls := w.calls ++
              [Call.getEndpointFromIrp, Call.releaseEndpointAndContext] } buffer := by
  obtain ⟨e, p, c⟩ := w
  simp only at hep
  subst hep
  simp [SarKsPinRtGetBuffer, SarKsPinRtGetBufferWithNotification, SarKsPinRtGetBufferCore, hbase]

/-- C4, an instance: base address 1 on the sample endpoint. -/
theorem getBuffer_base_address_not_implemented_witness :
    SarKsPinRtGetBufferCore allSucceed 65536 sampleWorld 1 1000 0 ⟨0, 0, true⟩
      = Outcome.returned STATUS_NOT_IMPLEMENTED
          { sampleWorld with calls :=
              [Call.getEndpointFromIrp, Call.releaseEndpointAndContext] } ⟨0, 0, true⟩ :=
  (getBuffer_base_address_not_implemented allSucceed 65536 sampleWorld sampleEndpoint 1 1000 0
    ⟨0, 0, true⟩ rfl (by decide)).1

/-- C8, counterexample: with no endpoint the latency query returns STATUS_UNSUCCESSFUL,
which is not STATUS_NOT_FOUND, and the buffer acquisition reads endpoint->owner through
the null pointer before its test and stops in a fault. -/
theorem not_found_status_differs :
    SarKsPinRtGetHwLatency emptyWorld ⟨1, 1, 1⟩
        = Outcome.returned STATUS_UNSUCCESSFUL
            { emptyWorld with calls := [Call.getEndpointFromIrp] } ⟨1, 1, 1⟩ ∧
      STATUS_UNSUCCESSFUL ≠ STATUS_NOT_FOUND ∧
      SarKsPinRtGetBufferCore allSucceed 65536 emptyWorld 0 1000 0 ⟨0, 0, true⟩
        = Outcome.fault := by
  decide

/-- C8, amended: when the request resolves to no endpoint, the latency query, the
position register query and the notification registration return
STATUS_UNSUCCESSFUL; nothing is read through the null pointer (the run does not
fault), the world is the one before the call with the lookup added to the log, and
the caller's structure is untouched. -/
theorem no_endpoint_is_unsuccessful (env : Env) (w : World) (latency : KSRTAUDIO_HWLATENCY)
    (reg : KSRTAUDIO_HWREGISTER) (notificationEvent : Nat) (hnone : w.endpoint = none) :
    SarKsPinRtGetHwLatency w latency
      = Outcome.returned STATUS_UNSUCCESSFUL
          { w with calls := w.calls ++ [Call.getEndpointFromIrp] } latency ∧
    SarKsPinRtGetPositionRegister env w reg
      = Outcome.returned STATUS_UNSUCCESSFUL
          { w with calls := w.calls ++ [Call.getEndpointFromIrp] } reg ∧
    SarKsPinRtRegisterNotificationEvent env w notificationEvent
      = Outcome.returned STATUS_UNSUCCESSFUL
          { w with calls := w.calls ++ [Call.getEndpointFromIrp] } () := by
  obtain ⟨e, p, c⟩ := w
  simp only at hnone
  subst hnone
  simp [SarKsPinRtGetHwLatency, SarKsPinRtGetPositionRegister,
    SarKsPinRtRegisterNotificationEvent]

/-- C8, an instance: the position register query on a request without endpoint. -/
theorem no_endpoint_is_unsuccessful_witness :
    SarKsPinRtGetPositionRegister allSucceed emptyWorld ⟨(0, 0), 0, 1, 1, 0⟩
      = Outcome.returned STATUS_UNSUCCESSFUL
          { emptyWorld with calls := [Call.getEndpointFromIrp] } ⟨(0, 0), 0, 1, 1, 0⟩ :=
  (no_endpoint_is_unsuccessful allSucceed emptyWorld ⟨1, 1, 1⟩ ⟨(0, 0), 0, 1, 1, 0⟩ 77 rfl).2.1

/-- C6: on an existing endpoint each of the four handlers that look the endpoint up
returns with the endpoint's reference count equal to the count before the call, after
exactly one lookup and exactly one release, whatever the steps outside wavert.cpp
answer. The only run that does not return is a buffer acquisition that divides by zero
in a round-up (frame size or cell size zero as a ULONG). -/
theorem endpoint_reference_released (env : Env) (cellSize : Nat) (w : World) (ep : SarEndpoint)
    (baseAddress requestedBufferSize notificationCount notificationEvent : Nat)
    (buffer : KSRTAUDIO_BUFFER) (latency : KSRTAUDIO_HWLATENCY) (reg : KSRTAUDIO_HWREGISTER)
    (hep : w.endpoint = some ep) :
    (releasedOnce w (SarKsPinRtGetBufferCore env cellSize w baseAddress requestedBufferSize
        notificationCount buffer) ∨
      (SarKsPinRtGetBufferCore env cellSize w baseAddress requestedBufferSize
          notificationCount buffer = Outcome.fault ∧
        (mulULONG ep.owner.sampleSize (negotiatedChannelCount ep) = 0 ∨
          cellSize % ULONG_MOD = 0))) ∧
    releasedOnce w (SarKsPinRtGetHwLatency w latency) ∧
    releasedOnce w (SarKsPinRtGetPositionRegister env w reg) ∧
    releasedOnce w (SarKsPinRtRegisterNotificationEvent env w notificationEvent) := by
  refine ⟨?_, ?_, ?_, ?_⟩
  · rcases getBufferCore_paths env cellSize w ep baseAddress requestedBufferSize
      notificationCount buffer hep with hfault | ⟨status, w', ep', buffer', hrun, -, hrel, -⟩
    · exact Or.inr hfault
    · rw [hrun]
      exact Or.inl hrel
  · obtain ⟨e, p, c⟩ := w
    simp only at hep
    subst hep
    simp [SarKsPinRtGetHwLatency, releasedOnce, List.count_append, List.count_cons]
  · obtain ⟨e, p, c⟩ := w
    simp only at hep
    subst hep
    generalize ho : SarKsPinRtGetPositionRegister env _ reg = o
    cases hpc : NT_SUCCESS env.processContextStatus
    · simp [SarKsPinRtGetPositionRegister, hpc] at ho
      subst ho
      simp [releasedOnce, List.count_append, List.count_cons]
    · simp [SarKsPinRtGetPositionRegister, hpc] at ho
      subst ho
      simp [releasedOnce, List.count_append, List.count_cons]
  · obtain ⟨e, p, c⟩ := w
    simp only at hep
    subst hep
    generalize ho : SarKsPinRtRegisterNotificationEvent env _ notificationEvent = o
    cases hr : NT_SUCCESS env.readStatus
    · simp [SarKsPinRtRegisterNotificationEvent, hr] at ho
      subst ho
      simp [releasedOnce, List.count_append, List.count_cons]
    · cases hp : NT_SUCCESS env.postStatus
      · simp [SarKsPinRtRegisterNotificationEvent, hr, hp] at ho
        subst ho
        simp [releasedOnce, List.count_append, List.count_cons]
      · simp [SarKsPinRtRegisterNotificationEvent, hr, hp] at ho
        subst ho
        simp [releasedOnce, List.count_append, List.count_cons]

/-- C6, an instance: on the sample endpoint, with a failing mapping, each handler
returns with the reference released once. -/
theorem endpoint_reference_released_witness :
    releasedOnce sampleWorld
        (SarKsPinRtGetBufferCore mappingFails 65536 sampleWorld 0 1000 0 ⟨0, 0, true⟩) ∧
      releasedOnce sampleWorld (SarKsPinRtGetHwLatency sampleWorld ⟨1, 1, 1⟩) ∧
      releasedOnce sampleWorld
        (SarKsPinRtGetPositionRegister mappingFails sampleWorld ⟨(0, 0), 0, 1, 1, 0⟩) ∧
      releasedOnce sampleWorld
        (SarKsPinRtRegisterNotificationEvent mappingFails sampleWorld 77) := by
  obtain ⟨hcore, hrest⟩ :=
    endpoint_reference_released mappingFails 65536 sampleWorld sampleEndpoint 0 1000 0 77
      ⟨0, 0, true⟩ ⟨1, 1, 1⟩ ⟨(0, 0), 0, 1, 1, 0⟩ rfl
  refine ⟨?_, hrest⟩
  rcases hcore with h | ⟨hfault, -⟩
  · exact h
  · exact absurd hfault (by decide)

/-- A buffer acquisition with a null base address on an existing endpoint in which every
step succeeds returns STATUS_SUCCESS, leaves exactly the world of `acquiredWorld`, and
fills the caller's structure with the mapped address, actualSize and FALSE. -/
theorem getBufferCore_succeeds (env : Env) (cellSize : Nat) (w : World) (ep : SarEndpoint)
    (requestedBufferSize notificationCount a v s i : Nat) (buffer : KSRTAUDIO_BUFFER)
    (hep : w.endpoint = some ep)
    (hpc : NT_SUCCESS env.processContextStatus = true)
    (ha : actualSize requestedBufferSize ep.owner.minimumFrameCount ep.owner.periodSizeBytes
      (negotiatedChannelCount ep) ep.owner.sampleSize = some a)
    (hv : viewSize cellSize a = some v)
    (hs : ep.owner.bufferSection = some s)
    (hf : RtlFindClearBits ep.owner.bufferMap ((v / cellSize) % ULONG_MOD) = some i)
    (hi : i ≠ 0xFFFFFFFF)
    (hm : NT_SUCCESS env.mapStatus = true)
    (hr : NT_SUCCESS env.readStatus = true)
    (hw : NT_SUCCESS env.writeStatus = true) :
    SarKsPinRtGetBufferCore env cellSize w 0 requestedBufferSize notificationCount buffer
      = Outcome.returned STATUS_SUCCESS
          (acquiredWorld env cellSize w ep a v s i notificationCount)
          ⟨env.mappedAddress, a, false⟩ := by
  obtain ⟨e, p, c⟩ := w
  simp only at hep
  subst hep
  simp only [negotiatedChannelCount] at ha
  generalize ho : SarKsPinRtGetBufferCore env cellSize _ 0 requestedBufferSize
    notificationCount buffer = o
  simp [SarKsPinRtGetBufferCore, assumeChannelCount_eq, hpc, ha, hv, hs, hf, hi, hm, hr, hw]
    at ho
  subst ho
  simp [acquiredWorld, acquiredRegisters, successCalls, hs]

/-- C7: a buffer acquisition with a null base address on an existing endpoint in which
every step succeeds returns STATUS_SUCCESS, through the core and through both entry
points, and leaves exactly the world of `acquiredWorld`: the register block written
back is the block read with bufferOffset, bufferSize and notificationCount replaced,
bufferOffset being cellIndex * SAR_BUFFER_CELL_SIZE as a ULONG, the byte offset at
which the view was mapped, bufferSize being actualSize and notificationCount the
caller's count, 0 through SarKsPinRtGetBuffer; generation and positionRegister are
those read. The caller's structure holds actualSize, the mapped address and
CallMemoryBarrier = FALSE. Conversely every return of STATUS_SUCCESS is such a run. -/
theorem getBuffer_success_writes_registers (env : Env) (cellSize : Nat) (w : World)
    (ep : SarEndpoint) (baseAddress requestedBufferSize notificationCount : Nat)
    (buffer : KSRTAUDIO_BUFFER) (hep : w.endpoint = some ep) :
    (∀ a v s i,
      NT_SUCCESS env.processContextStatus = true →
      actualSize requestedBufferSize ep.owner.minimumFrameCount ep.owner.periodSizeBytes
        (negotiatedChannelCount ep) ep.owner.sampleSize = some a →
      viewSize cellSize a = some v →
      ep.owner.bufferSection = some s →
      RtlFindClearBits ep.owner.bufferMap ((v / cellSize) % ULONG_MOD) = some i →
      i ≠ 0xFFFFFFFF →
      NT_SUCCESS env.mapStatus = true →
      NT_SUCCESS env.readStatus = true →
      NT_SUCCESS env.writeStatus = true →
      SarKsPinRtGetBufferCore env cellSize w 0 requestedBufferSize notificationCount buffer
        = Outcome.returned STATUS_SUCCESS
            (acquiredWorld env cellSize w ep a v s i notificationCount)
            ⟨env.mappedAddress, a, false⟩ ∧
      SarKsPinRtGetBufferWithNotification env cellSize w 0 requestedBufferSize
          notificationCount buffer
        = Outcome.returned STATUS_SUCCESS
            (acquiredWorld env cellSize w ep a v s i notificationCount)
            ⟨env.mappedAddress, a, false⟩ ∧
      SarKsPinRtGetBuffer env cellSize w 0 requestedBufferSize buffer
        = Outcome.returned STATUS_SUCCESS (acquiredWorld env cellSize w ep a v s i 0)
            ⟨env.mappedAddress, a, false⟩ ∧
      (acquiredWorld env cellSize w ep a v s i notificationCount).endpoint.map
          SarEndpoint.registers
        = some ⟨ep.registers.positionRegister, ep.registers.generation,
            mulULONG i cellSize, a, notificationCount⟩ ∧
      (acquiredWorld env cellSize w ep a v s i 0).endpoint.map SarEndpoint.registers
        = some ⟨ep.registers.positionRegister, ep.registers.generation,
            mulULONG i cellSize, a, 0⟩ ∧
      (acquiredWorld env cellSize w ep a v s i notificationCount).calls
        = w.calls ++
          [Call.getEndpointFromIrp, Call.getOrCreateEndpointProcessContext,
            Call.acquireFastMutex, Call.findClearBitsAndSet ((v / cellSize) % ULONG_MOD),
            Call.releaseFastMutex, Call.mapViewOfSection s (mulULONG i cellSize) v,
            Call.readEndpointRegisters,
            Call.writeEndpointRegisters ⟨ep.registers.positionRegister,
              ep.registers.generation, mulULONG i cellSize, a, notificationCount⟩,
            Call.releaseEndpointAndContext] ∧
      (i * cellSize < ULONG_MOD → mulULONG i cellSize = i * cellSize)) ∧
    (∀ w' buffer',
      SarKsPinRtGetBufferCore env cellSize w baseAddress requestedBufferSize notificationCount
        buffer = Outcome.returned STATUS_SUCCESS w' buffer' →
      ∃ ep' a v s,
        w'.endpoint = some ep' ∧
        actualSize requestedBufferSize ep.owner.minimumFrameCount ep.owner.periodSizeBytes
          (negotiatedChannelCount ep) ep.owner.sampleSize = some a ∧
        viewSize cellSize a = some v ∧
        ep.owner.bufferSection = some s ∧
        RtlFindClearBits ep.owner.bufferMap ((v / cellSize) % ULONG_MOD)
          = some ep'.activeCellIndex ∧
        ep'.registers = { ep.registers with
          bufferOffset := mulULONG ep'.activeCellIndex cellSize
          bufferSize := a
          notificationCount := notificationCount } ∧
        ep'.registers.generation = ep.registers.generation ∧
        ep'.registers.positionRegister = ep.registers.positionRegister ∧
        (ep'.activeCellIndex * cellSize < ULONG_MOD →
          ep'.registers.bufferOffset = ep'.activeCellIndex * cellSize) ∧
        w'.calls = w.calls ++ successCalls ((v / cellSize) % ULONG_MOD) s
          (mulULONG ep'.activeCellIndex cellSize) v ep'.registers ∧
        buffer' = ⟨env.mappedAddress, a, false⟩) ∧
    (∀ w' buffer',
      SarKsPinRtGetBuffer env cellSize w baseAddress requestedBufferSize buffer
        = Outcome.returned STATUS_SUCCESS w' buffer' →
      ∃ ep', w'.endpoint = some ep' ∧ ep'.registers.notificationCount = 0) := by
  refine ⟨?_, ?_, ?_⟩
  · intro a v s i hpc ha hv hs hf hi hm hr hw
    refine ⟨?_, ?_, ?_, rfl, rfl, rfl, fun hlt => mulULONG_exact _ _ hlt⟩
    · exact getBufferCore_succeeds env cellSize w ep requestedBufferSize notificationCount
        a v s i buffer hep hpc ha hv hs hf hi hm hr hw
    · exact getBufferCore_succeeds env cellSize w ep requestedBufferSize notificationCount
        a v s i buffer hep hpc ha hv hs hf hi hm hr hw
    · exact getBufferCore_succeeds env cellSize w ep requestedBufferSize 0
        a v s i buffer hep hpc ha hv hs hf hi hm hr hw
  · intro w' buffer' hsucc
    rcases getBufferCore_paths env cellSize w ep baseAddress requestedBufferSize
      notificationCount buffer hep with ⟨hfault, -⟩ | ⟨status, w1, ep', b1, hrun, hw1, -, -, hs⟩
    · rw [hfault] at hsucc
      exact absurd hsucc (by simp)
    · rw [hrun] at hsucc
      injection hsucc with h1 h2 h3
      subst h1 h2 h3
      obtain ⟨a, v, s, -, ha, hv, hsec, hfind, hregs, hcalls, hbuf⟩ := hs rfl
      refine ⟨ep', a, v, s, hw1, ha, hv, hsec, hfind, hregs, ?_, ?_, ?_, hcalls, hbuf⟩
      · rw [hregs]
      · rw [hregs]
      · intro hlt
        rw [hregs]
        exact mulULONG_exact _ _ hlt
  · intro w' buffer' hsucc
    rcases getBufferCore_paths env cellSize w ep baseAddress requestedBufferSize
      0 buffer hep with ⟨hfault, -⟩ | ⟨status, w1, ep', b1, hrun, hw1, -, -, hs⟩
    · rw [SarKsPinRtGetBuffer, hfault] at hsucc
      exact absurd hsucc (by simp)
    · rw [SarKsPinRtGetBuffer, hrun] at hsucc
      injection hsucc with h1 h2 h3
      subst h1 h2 h3
      obtain ⟨a, v, s, -, -, -, -, -, hregs, -, -⟩ := hs rfl
      exact ⟨ep', hw1, by rw [hregs]⟩

/-- C7, two instances with cells of 65536 bytes and 1000 bytes requested. On the sample
endpoint the core writes the block ⟨9, 5, 0, 0, 0⟩ back as ⟨9, 5, 65536, 2048, 0⟩ and
returns STATUS_SUCCESS. On the endpoint with two negotiated channels
SarKsPinRtGetBuffer succeeds and writes notification count 0, and
SarKsPinRtGetBufferWithNotification with count 3 succeeds and writes 3. -/
theorem getBuffer_success_writes_registers_witness :
    SarKsPinRtGetBufferCore allSucceed 65536 sampleWorld 0 1000 0 ⟨0, 0, true⟩
        = Outcome.returned STATUS_SUCCESS sampleWorldAcquired ⟨8192, 2048, false⟩ ∧
      sampleWorldAcquired.endpoint.map SarEndpoint.registers
        = some ⟨9, 5, 65536, 2048, 0⟩ ∧
      (∃ w', SarKsPinRtGetBuffer allSucceed 65536 negotiatedWorld 0 1000 ⟨0, 0, true⟩
          = Outcome.returned STATUS_SUCCESS w' ⟨8192, 2048, false⟩ ∧
        w'.endpoint.map SarEndpoint.registers = some ⟨9, 5, 65536, 2048, 0⟩) ∧
      (∃ w', SarKsPinRtGetBufferWithNotification allSucceed 65536 negotiatedWorld 0 1000 3
          ⟨0, 0, true⟩ = Outcome.returned STATUS_SUCCESS w' ⟨8192, 2048, false⟩ ∧
        w'.endpoint.map SarEndpoint.registers = some ⟨9, 5, 65536, 2048, 3⟩) := by
  obtain ⟨hcore, -, -, hregs, -, -, -⟩ :=
    (getBuffer_success_writes_registers allSucceed 65536 sampleWorld sampleEndpoint 0 1000 0
      ⟨0, 0, true⟩ rfl).1 2048 65536 7 1 (by decide) (by decide) (by decide) rfl
      (by decide) (by decide) (by decide) (by decide) (by decide)
  obtain ⟨-, hnotify, hplain, hregs3, hregs0, -, -⟩ :=
    (getBuffer_success_writes_registers allSucceed 65536 negotiatedWorld
      { sampleEndpoint with activeChannelCount := 2 } 0 1000 3
      ⟨0, 0, true⟩ rfl).1 2048 65536 7 1 (by decide) (by decide) (by decide) rfl
      (by decide) (by decide) (by decide) (by decide) (by decide)
  have hsame : acquiredWorld allSucceed 65536 sampleWorld sampleEndpoint 2048 65536 7 1 0
      = sampleWorldAcquired := by decide
  rw [hsame] at hcore hregs
  exact ⟨hcore, hregs, ⟨_, hplain, hregs0⟩, ⟨_, hnotify, hregs3⟩⟩

/-- C3, counterexample: a null base address and an absent section, but the process
context cannot be obtained: the call returns that step's STATUS_NO_MEMORY at line 51,
before the section is looked at, and not STATUS_INSUFFICIENT_RESOURCES. With an absent
section and a sample size of 0 the round-up of lines 54-59 divides by zero before the
section is looked at. -/
theorem absent_section_other_status :
    noSectionWorld.endpoint.map (fun e => e.owner.bufferSection) = some none ∧
      (∃ w', SarKsPinRtGetBufferCore processContextFails 65536 noSectionWorld 0 1000 0
          ⟨0, 0, true⟩ = Outcome.returned STATUS_NO_MEMORY w' ⟨0, 0, true⟩) ∧
      STATUS_NO_MEMORY ≠ STATUS_INSUFFICIENT_RESOURCES ∧
      unconfiguredWorld.endpoint.map (fun e => e.owner.bufferSection) = some none ∧
      SarKsPinRtGetBufferCore allSucceed 65536 unconfiguredWorld 0 1000 0 ⟨0, 0, true⟩
        = Outcome.fault :=
  ⟨by decide, ⟨_, rfl⟩, by decide, by decide, by decide⟩

/-- C3, amended: a buffer acquisition on an existing endpoint with a null base address
that obtains the process context and computes its two sizes, and then finds the
section absent or no run of viewSize / cellSize clear cells in the bitmap, returns
STATUS_INSUFFICIENT_RESOURCES without any allocation: bitmap, activeCellIndex,
activeViewSize, activeBufferSize, register block and reference count are as before,
the mutex is released, the caller's structure is untouched, and the log gains no
mapping and no register write. -/
theorem getBuffer_exhaustion_allocates_nothing (env : Env) (cellSize : Nat) (w : World)
    (ep : SarEndpoint) (requestedBufferSize notificationCount a v : Nat)
    (buffer : KSRTAUDIO_BUFFER)
    (hep : w.endpoint = some ep)
    (hpc : NT_SUCCESS env.processContextStatus = true)
    (ha : actualSize requestedBufferSize ep.owner.minimumFrameCount ep.owner.periodSizeBytes
      (negotiatedChannelCount ep) ep.owner.sampleSize = some a)
    (hv : viewSize cellSize a = some v)
    (hfail : ep.owner.bufferSection = none ∨
      ∀ i, clearRunAt ep.owner.bufferMap i ((v / cellSize) % ULONG_MOD) = false) :
    ∃ w' ep',
      SarKsPinRtGetBufferCore env cellSize w 0 requestedBufferSize notificationCount buffer
        = Outcome.returned STATUS_INSUFFICIENT_RESOURCES w' buffer ∧
      w'.endpoint = some ep' ∧
      ep'.owner.bufferMap = ep.owner.bufferMap ∧
      ep'.activeCellIndex = ep.activeCellIndex ∧
      ep'.activeViewSize = ep.activeViewSize ∧
      ep'.activeBufferSize = ep.activeBufferSize ∧
      ep'.registers = ep.registers ∧
      ep'.refCount = ep.refCount ∧
      ep'.owner.mutexHeld = false ∧
      w'.calls.filter Call.mapsOrWrites = w.calls.filter Call.mapsOrWrites := by
  obtain ⟨e, p, c⟩ := w
  simp only at hep
  subst hep
  simp only [negotiatedChannelCount] at ha
  generalize ho : SarKsPinRtGetBufferCore env cellSize _ 0 requestedBufferSize
    notificationCount buffer = o
  cases hs : ep.owner.bufferSection with
  | none =>
    simp [SarKsPinRtGetBufferCore, assumeChannelCount_eq, hpc, ha, hv, hs] at ho
    subst ho
    refine ⟨_, _, rfl, rfl, ?_⟩
    simp [Call.mapsOrWrites]
  | some s =>
    have hrun : ∀ i, clearRunAt ep.owner.bufferMap i ((v / cellSize) % ULONG_MOD) = false := by
      rcases hfail with h | h
      · rw [hs] at h
        exact absurd h (by simp)
      · exact h
    have hf := RtlFindClearBits_eq_none _ _ hrun
    simp [SarKsPinRtGetBufferCore, assumeChannelCount_eq, hpc, ha, hv, hs, hf] at ho
    subst ho
    refine ⟨_, _, rfl, rfl, ?_⟩
    simp [Call.mapsOrWrites]

/-- C3, the example of the spec: a bitmap without a free cell; the acquisition fails
with STATUS_INSUFFICIENT_RESOURCES and the bitmap is as before. -/
theorem getBuffer_exhaustion_allocates_nothing_witness :
    ∃ w' ep', SarKsPinRtGetBufferCore allSucceed 65536 fullWorld 0 1000 0 ⟨0, 0, true⟩
        = Outcome.returned STATUS_INSUFFICIENT_RESOURCES w' ⟨0, 0, true⟩ ∧
      w'.endpoint = some ep' ∧ ep'.owner.bufferMap = [true, true, true, true] := by
  have hfull : ∀ i, clearRunAt [true, true, true, true] i ((65536 / 65536) % ULONG_MOD)
      = false := by
    intro i
    have hn : (65536 / 65536) % ULONG_MOD = 1 := by decide
    rw [hn]
    by_cases hi : i < 4
    · interval_cases i <;> decide
    · simp [clearRunAt]
      omega
  obtain ⟨w', ep', hrun, hw, hmap, -⟩ :=
    getBuffer_exhaustion_allocates_nothing allSucceed 65536 fullWorld
      { sampleEndpoint with owner := fullContext } 1000 0 2048 65536 ⟨0, 0, true⟩ rfl
      (by decide) (by decide) (by decide) (Or.inr hfull)
  exact ⟨w', ep', hrun, hw, hmap⟩

/-- C9, counterexample: an endpoint that declares no channel and never set its active
channel count; the active count becomes 0, the frame size sampleSize * 0 is 0, and the
round-up of lines 54-59 divides by zero although every outside step would succeed. -/
theorem no_channel_endpoint_faults :
    noChannelWorld.endpoint.map (fun e => (e.channelCount, e.activeChannelCount))
        = some (0, 0) ∧
      SarKsPinRtGetBufferCore allSucceed 65536 noChannelWorld 0 1000 0 ⟨0, 0, true⟩
        = Outcome.fault := by
  decide

/-- C9, amended: for an endpoint whose activeChannelCount is 0 and a null base address,
when the two sizes are defined with the declared channelCount in place of the active
count (no division by zero) and every outside step succeeds, the call returns
STATUS_SUCCESS with activeChannelCount = channelCount and with the actualSize computed
from channelCount recorded; every such call that returns at all leaves
activeChannelCount = channelCount; an endpoint whose activeChannelCount is non-zero
keeps it in every call that returns. -/
theorem getBuffer_assumes_channel_count (env : Env) (cellSize : Nat) (w : World)
    (ep : SarEndpoint) (requestedBufferSize notificationCount : Nat)
    (buffer : KSRTAUDIO_BUFFER) (hep : w.endpoint = some ep) :
    (ep.activeChannelCount = 0 → ∀ a v s i,
      NT_SUCCESS env.processContextStatus = true →
      actualSize requestedBufferSize ep.owner.minimumFrameCount ep.owner.periodSizeBytes
        ep.channelCount ep.owner.sampleSize = some a →
      viewSize cellSize a = some v →
      ep.owner.bufferSection = some s →
      RtlFindClearBits ep.owner.bufferMap ((v / cellSize) % ULONG_MOD) = some i →
      i ≠ 0xFFFFFFFF →
      NT_SUCCESS env.mapStatus = true →
      NT_SUCCESS env.readStatus = true →
      NT_SUCCESS env.writeStatus = true →
      ∃ w' ep',
        SarKsPinRtGetBufferCore env cellSize w 0 requestedBufferSize notificationCount buffer
          = Outcome.returned STATUS_SUCCESS w' ⟨env.mappedAddress, a, false⟩ ∧
        w'.endpoint = some ep' ∧
        ep'.activeChannelCount = ep.channelCount ∧
        ep'.activeBufferSize = a) ∧
    (ep.activeChannelCount = 0 → ∀ status w' buffer',
      SarKsPinRtGetBufferCore env cellSize w 0 requestedBufferSize notificationCount buffer
        = Outcome.returned status w' buffer' →
      ∃ ep', w'.endpoint = some ep' ∧ ep'.activeChannelCount = ep.channelCount) ∧
    (ep.activeChannelCount ≠ 0 → ∀ baseAddress status w' buffer',
      SarKsPinRtGetBufferCore env cellSize w baseAddress requestedBufferSize notificationCount
        buffer = Outcome.returned status w' buffer' →
      ∃ ep', w'.endpoint = some ep' ∧ ep'.activeChannelCount = ep.activeChannelCount) := by
  refine ⟨?_, ?_, ?_⟩
  · intro h0 a v s i hpc ha hv hs hf hi hm hr hw
    obtain ⟨e, p, c⟩ := w
    simp only at hep
    subst hep
    generalize ho : SarKsPinRtGetBufferCore env cellSize _ 0 requestedBufferSize
      notificationCount buffer = o
    simp [SarKsPinRtGetBufferCore, assumeChannelCount_eq, h0, hpc, ha, hv, hs, hf, hi, hm, hr,
      hw] at ho
    subst ho
    exact ⟨_, _, rfl, rfl, rfl, rfl⟩
  · intro h0 status w' buffer' hret
    rcases getBufferCore_paths env cellSize w ep 0 requestedBufferSize
      notificationCount buffer hep with ⟨hfault, -⟩ | ⟨st, w1, ep', b1, hrun, hw1, -, hacc, -⟩
    · rw [hfault] at hret
      exact absurd hret (by simp)
    · rw [hrun] at hret
      injection hret with h1 h2 h3
      subst h1 h2 h3
      refine ⟨ep', hw1, ?_⟩
      rw [hacc]
      simp [h0]
  · intro hne baseAddress status w' buffer' hret
    rcases getBufferCore_paths env cellSize w ep baseAddress requestedBufferSize
      notificationCount buffer hep with ⟨hfault, -⟩ | ⟨st, w1, ep', b1, hrun, hw1, -, hacc, -⟩
    · rw [hfault] at hret
      exact absurd hret (by simp)
    · rw [hrun] at hret
      injection hret with h1 h2 h3
      subst h1 h2 h3
      refine ⟨ep', hw1, ?_⟩
      rw [hacc]
      simp [hne]

/-- C9, the example of the spec: channelCount = 2 and activeChannelCount = 0 end with
activeChannelCount = 2 and STATUS_SUCCESS. -/
theorem getBuffer_assumes_channel_count_witness :
    ∃ w' ep', SarKsPinRtGetBufferCore allSucceed 65536 sampleWorld 0 1000 0 ⟨0, 0, true⟩
        = Outcome.returned STATUS_SUCCESS w' ⟨8192, 2048, false⟩ ∧
      w'.endpoint = some ep' ∧ ep'.activeChannelCount = 2 ∧ ep'.activeBufferSize = 2048 :=
  (getBuffer_assumes_channel_count allSucceed 65536 sampleWorld sampleEndpoint 1000 0
    ⟨0, 0, true⟩ rfl).1 rfl 2048 65536 7 1 (by decide) (by decide) (by decide) rfl
    (by decide) (by decide) (by decide) (by decide) (by decide)

/-- C10: when the cells were allocated and the mapping, the register read or the
register write then fails, the call returns the status of that step; the allocated run
stays set in the bitmap, the endpoint keeps the recorded activeCellIndex,
activeViewSize and activeBufferSize, the reference is released and the mutex is not
held. -/
theorem getBuffer_failure_keeps_allocation (env : Env) (cellSize : Nat) (w : World)
    (ep : SarEndpoint) (requestedBufferSize notificationCount a v s i : Nat)
    (buffer : KSRTAUDIO_BUFFER)
    (hep : w.endpoint = some ep)
    (hpc : NT_SUCCESS env.processContextStatus = true)
    (ha : actualSize requestedBufferSize ep.owner.minimumFrameCount ep.owner.periodSizeBytes
      (negotiatedChannelCount ep) ep.owner.sampleSize = some a)
    (hv : viewSize cellSize a = some v)
    (hs : ep.owner.bufferSection = some s)
    (hf : RtlFindClearBits ep.owner.bufferMap ((v / cellSize) % ULONG_MOD) = some i)
    (hi : i ≠ 0xFFFFFFFF)
    (hlater : NT_SUCCESS env.mapStatus = false ∨ NT_SUCCESS env.readStatus = false ∨
      NT_SUCCESS env.writeStatus = false) :
    ∃ w' ep',
      SarKsPinRtGetBufferCore env cellSize w 0 requestedBufferSize notificationCount buffer
        = Outcome.returned (firstFailure env) w' buffer ∧
      NT_SUCCESS (firstFailure env) = false ∧
      w'.endpoint = some ep' ∧
      ep'.owner.bufferMap
        = RtlSetBits ep.owner.bufferMap i ((v / cellSize) % ULONG_MOD) ∧
      (∀ j, i ≤ j → j < i + (v / cellSize) % ULONG_MOD →
        ep'.owner.bufferMap[j]? = some true) ∧
      ep'.activeCellIndex = i ∧
      ep'.activeViewSize = v ∧
      ep'.activeBufferSize = a ∧
      ep'.refCount = ep.refCount ∧
      ep'.owner.mutexHeld = false := by
  obtain ⟨e, p, c⟩ := w
  simp only at hep
  subst hep
  simp only [negotiatedChannelCount] at ha
  have hin : i + (v / cellSize) % ULONG_MOD ≤ ep.owner.bufferMap.length := by
    have h := RtlFindClearBits_some _ _ _ hf
    simp [clearRunAt] at h
    exact h.1
  have hbits := fun j => RtlSetBits_run ep.owner.bufferMap i ((v / cellSize) % ULONG_MOD) j hin
  generalize ho : SarKsPinRtGetBufferCore env cellSize _ 0 requestedBufferSize
    notificationCount buffer = o
  cases hm : NT_SUCCESS env.mapStatus
  · simp [SarKsPinRtGetBufferCore, assumeChannelCount_eq, hpc, ha, hv, hs, hf, hi, hm] at ho
    subst ho
    have hff : firstFailure env = env.mapStatus := by simp [firstFailure, hm]
    rw [hff]
    exact ⟨_, _, rfl, hm, rfl, rfl, hbits, rfl, rfl, rfl, by simp, rfl⟩
  cases hr : NT_SUCCESS env.readStatus
  · simp [SarKsPinRtGetBufferCore, assumeChannelCount_eq, hpc, ha, hv, hs, hf, hi, hm, hr] at ho
    subst ho
    have hff : firstFailure env = env.readStatus := by simp [firstFailure, hm, hr]
    rw [hff]
    exact ⟨_, _, rfl, hr, rfl, rfl, hbits, rfl, rfl, rfl, by simp, rfl⟩
  cases hw : NT_SUCCESS env.writeStatus
  · simp [SarKsPinRtGetBufferCore, assumeChannelCount_eq, hpc, ha, hv, hs, hf, hi, hm, hr, hw]
      at ho
    subst ho
    have hff : firstFailure env = env.writeStatus := by simp [firstFailure, hm, hr]
    rw [hff]
    exact ⟨_, _, rfl, hw, rfl, rfl, hbits, rfl, rfl, rfl, by simp, rfl⟩
  · rw [hm, hr, hw] at hlater
    simp at hlater

/-- C10, an instance: the mapping fails after the second cell of the sample bitmap was
allocated; the call returns the mapping's STATUS_NO_MEMORY and the cell stays set. -/
theorem getBuffer_failure_keeps_allocation_witness :
    ∃ w' ep', SarKsPinRtGetBufferCore mappingFails 65536 sampleWorld 0 1000 0 ⟨0, 0, true⟩
        = Outcome.returned STATUS_NO_MEMORY w' ⟨0, 0, true⟩ ∧
      w'.endpoint = some ep' ∧
      ep'.owner.bufferMap = [true, true, false, false] ∧
      ep'.activeCellIndex = 1 ∧ ep'.activeViewSize = 65536 ∧ ep'.activeBufferSize = 2048 := by
  obtain ⟨w', ep', hrun, -, hw, hmap, -, hidx, hview, hsize, -, -⟩ :=
    getBuffer_failure_keeps_allocation mappingFails 65536 sampleWorld sampleEndpoint 1000 0
      2048 65536 7 1 ⟨0, 0, true⟩ rfl (by decide) (by decide) (by decide) rfl (by decide)
      (by decide) (Or.inl (by decide))
  exact ⟨w', ep', hrun, hw, hmap, hidx, hview, hsize⟩

end SAR
